import Mathlib

/-!
Verification of the coordination core of `myr`, an interactive terminal
workbench for MySQL-compatible databases.

The Rust sources under `crates/core` and `crates/tui` are shallowly embedded
below.  Conventions of the embedding:

* Rust `String`/`&str` values become Lean `String` (with most scanning done on
  the underlying `List Char`); `usize`/`u64` counters become `Nat`.  The
  counters in question (`total_rows_seen`, `page_index`, `rows_streamed`,
  statement counts) only ever grow by one per observed event, so machine-word
  wraparound is not reachable in any run the spec talks about and the
  unbounded `Nat` is used; `saturating_add`/`saturating_sub` are modelled
  explicitly where the source uses them (`Nat` subtraction is itself
  saturating).
* Fallible Rust functions returning `Result` become `Except`.
* `&mut self` methods become functions `State → Args → State × Result`.
* Asynchronous backends (trait objects) are modelled by passing the sequence
  of results their calls would produce as explicit arguments.
* `std::collections::HashMap` is modelled as an association list with at most
  one binding per key (`mapInsert` erases the previous binding).
* The 64-bit `DefaultHasher` fingerprint of `safe_mode.rs` is external to the
  repository (it lives in Rust's standard library), so the guard is
  parametrised by an arbitrary fingerprint function `fp : String → Nat`;
  every theorem quantifies over it.
-/

/-! ### Character helpers shared by the embedded modules -/

/-- Unicode `White_Space` property, as used by Rust's `str::trim` and
`str::split_whitespace`. -/
def isRustWhitespace (c : Char) : Bool :=
  (9 ≤ c.toNat && c.toNat ≤ 13) || c.toNat = 32 || c.toNat = 133 || c.toNat = 160 ||
  c.toNat = 5760 || (8192 ≤ c.toNat && c.toNat ≤ 8202) || c.toNat = 8232 ||
  c.toNat = 8233 || c.toNat = 8239 || c.toNat = 8287 || c.toNat = 12288

/-- The single-quote character, written numerically to keep the scanner state
machine readable. -/
def singleQuoteChar : Char := Char.ofNat 39

/-- The backtick character. -/
def backtickChar : Char := Char.ofNat 96

/-- Drop leading Rust whitespace. -/
def trimLeftChars (l : List Char) : List Char := l.dropWhile isRustWhitespace

/-- Drop trailing Rust whitespace. -/
def trimRightChars (l : List Char) : List Char :=
  (l.reverse.dropWhile isRustWhitespace).reverse

/-- Rust `str::trim` on a character list. -/
def trimChars (l : List Char) : List Char := trimRightChars (trimLeftChars l)

/-- Rust `str::split_whitespace`: maximal runs of non-whitespace characters,
with empty runs discarded.  `cur` is the run currently being accumulated. -/
def splitWhitespaceAux : List Char → List Char → List (List Char)
  | [], cur => if cur = [] then [] else [cur]
  | c :: cs, cur =>
    if isRustWhitespace c then
      if cur = [] then splitWhitespaceAux cs []
      else cur :: splitWhitespaceAux cs []
    else splitWhitespaceAux cs (cur ++ [c])

/-- Rust `str::split_whitespace`. -/
def splitWhitespaceChars (l : List Char) : List (List Char) :=
  splitWhitespaceAux l []

/-- Rust `char::eq_ignore_ascii_case` lifted to strings of characters (both
sides are ASCII-lowercased and compared). -/
def eqIgnoreAsciiCase (a b : List Char) : Bool :=
  a.map Char.toLower == b.map Char.toLower

/-! ### `crates/core/src/safe_mode.rs` -/

/-- Mirror of `SqlRiskReason`. -/
inductive SqlRiskReason where
  | MultiStatement
  | WriteOperation (keyword : String)
  | DdlOperation (keyword : String)
  | TransactionControl (keyword : String)
  | SessionMutation (keyword : String)
  | UnknownStatement (keyword : String)
deriving Repr, DecidableEq

/-- Mirror of `SqlSafetyAssessment`. -/
structure SqlSafetyAssessment where
  statement_count : Nat
  primary_keyword : Option String
  reasons : List SqlRiskReason
  normalized_sql : String
deriving Repr, DecidableEq

/-- Mirror of `SqlSafetyAssessment::is_safe_read_only`. -/
def SqlSafetyAssessment.is_safe_read_only (a : SqlSafetyAssessment) : Bool :=
  a.reasons.isEmpty

/-- Mirror of `ConfirmationToken` (a newtype over the token string). -/
structure ConfirmationToken where
  as_str : String
deriving Repr, DecidableEq

/-- Mirror of `GuardDecision`. -/
inductive GuardDecision where
  | Allow (assessment : SqlSafetyAssessment)
  | RequireConfirmation (token : ConfirmationToken) (assessment : SqlSafetyAssessment)
deriving Repr, DecidableEq

/-- Mirror of `SafeModeError`. -/
inductive SafeModeError where
  | InvalidToken
  | SqlMismatch
deriving Repr, DecidableEq

/-- State of the statement splitter `split_statements`: the quote and comment
flags, the statement being accumulated, and the statements already emitted. -/
structure SplitState where
  in_single_quote : Bool
  in_double_quote : Bool
  in_backtick : Bool
  in_line_comment : Bool
  in_block_comment : Bool
  current : List Char
  statements : List (List Char)
deriving Repr, DecidableEq

/-- Initial splitter state. -/
def SplitState.init : SplitState :=
  ⟨false, false, false, false, false, [], []⟩

/-- Whether the scanner is outside every quoting construct. -/
def SplitState.outsideQuotes (st : SplitState) : Bool :=
  !st.in_single_quote && !st.in_double_quote && !st.in_backtick

/-- Does the scanner consume the next two characters at once?  This happens
exactly for `*/` inside a block comment and for the comment openers `--` and
`/*` outside quotes and comments (the Rust loop advances the iterator past the
peeked character in these cases). -/
def splitLookahead (st : SplitState) (c c2 : Char) : Bool :=
  if st.in_line_comment then false
  else if st.in_block_comment then c = '*' && c2 = '/'
  else if st.outsideQuotes then (c = '-' && c2 = '-') || (c = '/' && c2 = '*')
  else false

/-- State update for the two-character cases of `splitLookahead`. -/
def splitConsumeTwo (st : SplitState) (c : Char) : SplitState :=
  if st.in_block_comment then { st with in_block_comment := false }
  else if c = '-' then { st with in_line_comment := true }
  else { st with in_block_comment := true }

/-- Flush the current statement: trim it and emit it when non-empty.  Used for
`;` and for the trailing statement. -/
def splitFlush (current : List Char) : List (List Char) :=
  let statement := trimChars current
  if statement = [] then [] else [statement]

/-- Processing of one character when no two-character lookahead fires: the
comment states swallow the character, `#` opens a line comment outside quotes,
the three quote characters toggle their flags, `;` outside quotes ends the
current statement, and everything else is accumulated. -/
def splitStep (st : SplitState) (c : Char) : SplitState :=
  if st.in_line_comment then
    if c = '\n' then { st with in_line_comment := false } else st
  else if st.in_block_comment then st
  else if st.outsideQuotes && c = '#' then { st with in_line_comment := true }
  else if c = singleQuoteChar && (!st.in_double_quote && !st.in_backtick) then
    { st with in_single_quote := !st.in_single_quote, current := st.current ++ [c] }
  else if c = '"' && (!st.in_single_quote && !st.in_backtick) then
    { st with in_double_quote := !st.in_double_quote, current := st.current ++ [c] }
  else if c = backtickChar && (!st.in_single_quote && !st.in_double_quote) then
    { st with in_backtick := !st.in_backtick, current := st.current ++ [c] }
  else if c = ';' && st.outsideQuotes then
    { st with current := [], statements := st.statements ++ splitFlush st.current }
  else { st with current := st.current ++ [c] }

/-- Main loop of `split_statements`. -/
def splitStatementsGo (st : SplitState) : List Char → List (List Char)
  | [] => st.statements ++ splitFlush st.current
  | [c] => let st := splitStep st c; st.statements ++ splitFlush st.current
  | c :: c2 :: cs =>
    if splitLookahead st c c2 then splitStatementsGo (splitConsumeTwo st c) cs
    else splitStatementsGo (splitStep st c) (c2 :: cs)

/-- Mirror of `split_statements`: quote- and comment-aware splitting of a SQL
string into trimmed, non-empty statements. -/
def split_statements (sql : String) : List String :=
  (splitStatementsGo SplitState.init sql.data).map String.mk

/-- Mirror of `first_keyword`: the first whitespace-delimited token, ASCII
uppercased. -/
def first_keyword (statement : String) : Option String :=
  (splitWhitespaceChars statement.data).head?.map
    (fun keyword => String.mk (keyword.map Char.toUpper))

/-- Mirror of `is_safe_read_keyword`. -/
def is_safe_read_keyword (keyword : String) : Bool :=
  keyword = "SELECT" || keyword = "SHOW" || keyword = "DESCRIBE" ||
  keyword = "DESC" || keyword = "EXPLAIN" || keyword = "HELP" || keyword = "USE"

/-- Mirror of `is_write_keyword`. -/
def is_write_keyword (keyword : String) : Bool :=
  keyword = "INSERT" || keyword = "UPDATE" || keyword = "DELETE" ||
  keyword = "REPLACE" || keyword = "LOAD" || keyword = "CALL" || keyword = "DO"

/-- Mirror of `is_ddl_keyword`. -/
def is_ddl_keyword (keyword : String) : Bool :=
  keyword = "CREATE" || keyword = "ALTER" || keyword = "DROP" ||
  keyword = "TRUNCATE" || keyword = "RENAME" || keyword = "ANALYZE" ||
  keyword = "OPTIMIZE" || keyword = "REPAIR"

/-- Mirror of `is_transaction_keyword`. -/
def is_transaction_keyword (keyword : String) : Bool :=
  keyword = "START" || keyword = "BEGIN" || keyword = "COMMIT" ||
  keyword = "ROLLBACK" || keyword = "LOCK" || keyword = "UNLOCK"

/-- Mirror of `is_session_mutation_keyword`. -/
def is_session_mutation_keyword (keyword : String) : Bool :=
  keyword = "SET" || keyword = "GRANT" || keyword = "REVOKE"

/-- Risk reasons contributed by a single statement: the body of the
classification loop of `assess_sql_safety`. -/
def statement_risk (statement : String) : List SqlRiskReason :=
  match first_keyword statement with
  | none => []
  | some keyword =>
    if is_safe_read_keyword keyword then []
    else if is_write_keyword keyword then [.WriteOperation keyword]
    else if is_ddl_keyword keyword then [.DdlOperation keyword]
    else if is_transaction_keyword keyword then [.TransactionControl keyword]
    else if is_session_mutation_keyword keyword then [.SessionMutation keyword]
    else [.UnknownStatement keyword]

/-- Mirror of `assess_sql_safety`. -/
def assess_sql_safety (sql : String) : SqlSafetyAssessment :=
  let statements := split_statements sql
  let statement_count := statements.length
  let multi : List SqlRiskReason :=
    if statement_count > 1 then [.MultiStatement] else []
  { statement_count
    primary_keyword := statements.head?.bind first_keyword
    reasons := multi ++ statements.flatMap statement_risk
    normalized_sql := String.intercalate "; " statements }

/-- Association-list lookup standing in for `HashMap::get`. -/
def mapLookup (key : String) (m : List (String × Nat)) : Option Nat :=
  (m.find? (fun p => p.1 = key)).map (·.2)

/-- Association-list insertion standing in for `HashMap::insert` (a single
binding per key). -/
def mapInsert (key : String) (value : Nat) (m : List (String × Nat)) :
    List (String × Nat) :=
  (key, value) :: m.filter (fun p => p.1 ≠ key)

/-- Association-list removal standing in for `HashMap::remove`. -/
def mapErase (key : String) (m : List (String × Nat)) : List (String × Nat) :=
  m.filter (fun p => p.1 ≠ key)

/-- Mirror of `SafeModeGuard`. -/
structure SafeModeGuard where
  enabled : Bool
  nonce : Nat
  pending_confirmations : List (String × Nat)
deriving Repr, DecidableEq

/-- Mirror of `SafeModeGuard::new`. -/
def SafeModeGuard.new (enabled : Bool) : SafeModeGuard :=
  { enabled, nonce := 0, pending_confirmations := [] }

/-- Hexadecimal rendering of the fingerprint, zero-padded to 16 digits as the
format string `{fingerprint:016x}` does for a `u64`. -/
def hex16 (n : Nat) : String :=
  let digits := Nat.toDigits 16 n
  String.mk (List.replicate (16 - digits.length) '0' ++ digits)

/-- The token string `confirm-<nonce>-<fingerprint:016x>`. -/
def tokenString (nonce fingerprint : Nat) : String :=
  "confirm-" ++ Nat.repr nonce ++ "-" ++ hex16 fingerprint

/-- Mirror of `SafeModeGuard::evaluate`, parametrised by the fingerprint
function `fp` (the source hashes `normalized_sql` with `DefaultHasher`).  The
`u64` nonce uses `saturating_add`. -/
def SafeModeGuard.evaluate (fp : String → Nat) (g : SafeModeGuard) (sql : String) :
    SafeModeGuard × GuardDecision :=
  let assessment := assess_sql_safety sql
  if !g.enabled || assessment.is_safe_read_only then (g, .Allow assessment)
  else
    let nonce := min (g.nonce + 1) (2 ^ 64 - 1)
    let fingerprint := fp assessment.normalized_sql
    let token := tokenString nonce fingerprint
    ({ g with
        nonce := nonce
        pending_confirmations := mapInsert token fingerprint g.pending_confirmations },
      .RequireConfirmation ⟨token⟩ assessment)

/-- Mirror of `SafeModeGuard::confirm`. -/
def SafeModeGuard.confirm (fp : String → Nat) (g : SafeModeGuard)
    (token : ConfirmationToken) (sql : String) :
    SafeModeGuard × Except SafeModeError Unit :=
  match mapLookup token.as_str g.pending_confirmations with
  | none => (g, .error .InvalidToken)
  | some stored =>
    let g := { g with
      pending_confirmations := mapErase token.as_str g.pending_confirmations }
    let assessment := assess_sql_safety sql
    let fingerprint := fp assessment.normalized_sql
    if stored ≠ fingerprint then (g, .error .SqlMismatch) else (g, .ok ())

/-! ### `crates/core/src/results_buffer.rs` -/

/-- Mirror of `ResultsRingBuffer<T>`; the `VecDeque` is a list whose head is
the front (oldest element). -/
structure ResultsRingBuffer (α : Type) where
  capacity : Nat
  rows : List α
  total_rows_seen : Nat
deriving Repr, DecidableEq

/-- Mirror of `ResultsRingBuffer::new` (the source asserts `capacity > 0`;
theorems carry that hypothesis). -/
def ResultsRingBuffer.new (α : Type) (capacity : Nat) : ResultsRingBuffer α :=
  { capacity, rows := [], total_rows_seen := 0 }

/-- Mirror of `ResultsRingBuffer::len`. -/
def ResultsRingBuffer.len (b : ResultsRingBuffer α) : Nat := b.rows.length

/-- Mirror of `ResultsRingBuffer::is_empty`. -/
def ResultsRingBuffer.is_empty (b : ResultsRingBuffer α) : Bool := b.rows.isEmpty

/-- Mirror of `ResultsRingBuffer::earliest_buffered_index`
(`total_rows_seen.saturating_sub(len)`; `Nat` subtraction saturates). -/
def ResultsRingBuffer.earliest_buffered_index (b : ResultsRingBuffer α) : Nat :=
  b.total_rows_seen - b.rows.length

/-- Mirror of `ResultsRingBuffer::latest_buffered_index`. -/
def ResultsRingBuffer.latest_buffered_index (b : ResultsRingBuffer α) : Option Nat :=
  if b.rows.isEmpty then none else some (b.total_rows_seen - 1)

/-- Mirror of `ResultsRingBuffer::push`: drop the front when full, append,
and count the row. -/
def ResultsRingBuffer.push (b : ResultsRingBuffer α) (row : α) : ResultsRingBuffer α :=
  let rows := if b.rows.length = b.capacity then b.rows.tail else b.rows
  { b with rows := rows ++ [row], total_rows_seen := b.total_rows_seen + 1 }

/-- Mirror of `ResultsRingBuffer::get`. -/
def ResultsRingBuffer.get (b : ResultsRingBuffer α) (index : Nat) : Option α :=
  b.rows.get? index

/-- A whole sequence of pushes, oldest first. -/
def ResultsRingBuffer.pushAll (b : ResultsRingBuffer α) (xs : List α) :
    ResultsRingBuffer α :=
  xs.foldl ResultsRingBuffer.push b

/-! ### `crates/core/src/query_runner.rs` -/

/-- Mirror of `QueryRow`. -/
structure QueryRow where
  values : List String
deriving Repr, DecidableEq

/-- Mirror of `QueryBackendError`. -/
structure QueryBackendError where
  message : String
deriving Repr, DecidableEq

/-- Mirror of `QueryRunnerError`. -/
inductive QueryRunnerError where
  | Backend (e : QueryBackendError)
deriving Repr, DecidableEq

/-- Mirror of `QueryExecutionSummary`.  The wall-clock `elapsed` field is not
modelled (real time is outside the embedding). -/
structure QueryExecutionSummary where
  rows_streamed : Nat
  was_cancelled : Bool
deriving Repr, DecidableEq

/-- Loop of `QueryRunner::execute_streaming`.  The backend stream is the list
of outcomes successive `next_row` calls would produce, followed by exhaustion;
`cancellation n` is the value of `CancellationToken::is_cancelled` observed at
the check made after `n` rows have been streamed; `cancelResult` is what
`stream.cancel()` would return.  The `Bool` in the result records whether
`stream.cancel()` was called. -/
def executeStreamingLoop (cancellation : Nat → Bool)
    (cancelResult : Except QueryBackendError Unit) :
    List (Except QueryBackendError QueryRow) → ResultsRingBuffer QueryRow → Nat →
    Except QueryRunnerError (QueryExecutionSummary × ResultsRingBuffer QueryRow × Bool)
  | outcomes, buffer, rows_streamed =>
    if cancellation rows_streamed then
      match cancelResult with
      | .error e => .error (.Backend e)
      | .ok _ => .ok (⟨rows_streamed, true⟩, buffer, true)
    else
      match outcomes with
      | [] => .ok (⟨rows_streamed, false⟩, buffer, false)
      | .error e :: _ => .error (.Backend e)
      | .ok row :: rest =>
        executeStreamingLoop cancellation cancelResult rest (buffer.push row)
          (rows_streamed + 1)

/-- Mirror of `QueryRunner::execute_streaming`; `startResult` is what
`backend.start_query(sql)` would return. -/
def execute_streaming
    (startResult : Except QueryBackendError (List (Except QueryBackendError QueryRow)))
    (cancelResult : Except QueryBackendError Unit)
    (cancellation : Nat → Bool) (buffer : ResultsRingBuffer QueryRow) :
    Except QueryRunnerError (QueryExecutionSummary × ResultsRingBuffer QueryRow × Bool) :=
  match startResult with
  | .error e => .error (.Backend e)
  | .ok outcomes => executeStreamingLoop cancellation cancelResult outcomes buffer 0

/-! ### `crates/core/src/connection_manager.rs` -/

/-- Mirror of `BackendError`. -/
structure BackendError where
  message : String
deriving Repr, DecidableEq

/-- Mirror of the fields of `ConnectionProfile` used by the connection
manager; the TLS, password-source and keyring knobs are opaque to it and are
elided. -/
structure ConnectionProfile where
  name : String
  host : String
  port : Nat
  user : String
  database : Option String
deriving Repr, DecidableEq

/-- Mirror of `ConnectionStatus`; durations and wall-clock instants are
abstract `Nat` stamps. -/
structure ConnectionStatus where
  profile_name : Option String
  is_connected : Bool
  last_latency : Option Nat
  last_health_check_at : Option Nat
deriving Repr, DecidableEq

/-- Mirror of `ConnectionStatus::disconnected`. -/
def ConnectionStatus.disconnected : ConnectionStatus :=
  { profile_name := none, is_connected := false, last_latency := none,
    last_health_check_at := none }

/-- Mirror of `ConnectionManagerError`. -/
inductive ConnectionManagerError where
  | AlreadyConnected (active_profile : String)
  | NotConnected
  | Backend (e : BackendError)
deriving Repr, DecidableEq

/-- Mirror of `ActiveConnection<C>`. -/
structure ActiveConnection (C : Type) where
  profile : ConnectionProfile
  handle : C
deriving Repr, DecidableEq

/-- Mirror of `ConnectionManager<B>`; the backend itself is modelled by
passing the results of its calls to `connect` below. -/
structure ConnectionManager (C : Type) where
  active : Option (ActiveConnection C)
  last_latency : Option Nat
  last_health_check_at : Option Nat
deriving Repr, DecidableEq

/-- Mirror of `ConnectionManager::new`. -/
def ConnectionManager.new (C : Type) : ConnectionManager C :=
  { active := none, last_latency := none, last_health_check_at := none }

/-- Mirror of `ConnectionManager::status`. -/
def ConnectionManager.status (m : ConnectionManager C) : ConnectionStatus :=
  { profile_name := m.active.map (fun active => active.profile.name)
    is_connected := m.active.isSome
    last_latency := m.last_latency
    last_health_check_at := m.last_health_check_at }

/-- Mirror of `ConnectionManager::active_profile`. -/
def ConnectionManager.active_profile (m : ConnectionManager C) :
    Option ConnectionProfile :=
  m.active.map (fun active => active.profile)

/-- Mirror of `ConnectionManager::connect`.  `connectResult` is what
`backend.connect(&profile)` would return, `pingResult` what
`backend.ping(&mut handle)` would return on the obtained handle, `latency` the
elapsed duration and `now` the wall clock on success. -/
def ConnectionManager.connect (m : ConnectionManager C) (profile : ConnectionProfile)
    (connectResult : Except BackendError C)
    (pingResult : C → Except BackendError Unit) (latency now : Nat) :
    ConnectionManager C × Except ConnectionManagerError Nat :=
  match m.active with
  | some active => (m, .error (.AlreadyConnected active.profile.name))
  | none =>
    match connectResult with
    | .error e => (m, .error (.Backend e))
    | .ok handle =>
      match pingResult handle with
      | .error e => (m, .error (.Backend e))
      | .ok _ =>
        ({ active := some ⟨profile, handle⟩, last_latency := some latency,
           last_health_check_at := some now }, .ok latency)

/-! ### `crates/core/src/actions_engine.rs`: `suggest_preview_limit` -/

/-- Rust `str::trim_end_matches(';')`: remove every trailing semicolon. -/
def dropTrailingSemicolons (l : List Char) : List Char :=
  (l.reverse.dropWhile (fun c => c = ';')).reverse

/-- Separator predicate of `contains_limit_keyword`: the split is on every
character that is not ASCII-alphanumeric and not an underscore. -/
def limitSeparator (c : Char) : Bool := !(c.isAlphanum || c = '_')

/-- Rust `str::split` on `limitSeparator`: tokens between separators, with
empty tokens kept (an empty input yields one empty token). -/
def tokenSplit : List Char → List (List Char)
  | [] => [[]]
  | c :: cs =>
    if limitSeparator c then [] :: tokenSplit cs
    else
      match tokenSplit cs with
      | [] => [[c]]
      | t :: ts => (c :: t) :: ts

/-- Mirror of `starts_with_select` on a character list. -/
def startsWithSelectChars (query : List Char) : Bool :=
  match splitWhitespaceChars query with
  | [] => false
  | keyword :: _ => eqIgnoreAsciiCase keyword "SELECT".data

/-- Mirror of `contains_limit_keyword` on a character list. -/
def containsLimitChars (query : List Char) : Bool :=
  (tokenSplit query).any (fun token => eqIgnoreAsciiCase token "LIMIT".data)

/-- Mirror of `suggest_preview_limit`: trim, strip every trailing `;`, re-trim,
require a leading `SELECT`, reject an existing `LIMIT` token, and append
` LIMIT <limit>`. -/
def suggest_preview_limit (query_text : String) (limit : Nat) : Option String :=
  let trimmed := trimChars query_text.data
  if trimmed = [] then none
  else
    let without_trailing_semicolon := trimChars (dropTrailingSemicolons trimmed)
    if without_trailing_semicolon = [] then none
    else if !startsWithSelectChars without_trailing_semicolon then none
    else if containsLimitChars without_trailing_semicolon then none
    else
      some (String.mk (without_trailing_semicolon ++ " LIMIT ".data ++
        (Nat.repr limit).data))

/-- Version of `suggest_preview_limit` written from the specification's words,
which say that exactly one trailing `;` is stripped (the source's
`trim_end_matches(';')` strips them all).  Used to compare the claimed and the
implemented behaviour. -/
def suggestPreviewLimitSpecOneSemicolon (query_text : String) (limit : Nat) :
    Option String :=
  let trimmed := trimChars query_text.data
  if trimmed = [] then none
  else
    let stripped :=
      trimChars (if trimmed.getLast? = some ';' then trimmed.dropLast else trimmed)
    if stripped = [] then none
    else if !startsWithSelectChars stripped then none
    else if containsLimitChars stripped then none
    else some (String.mk (stripped ++ " LIMIT ".data ++ (Nat.repr limit).data))

/-! ### `crates/tui/src/lib.rs`: pagination and the exit-confirmation machine -/

/-- Mirror of `PageTransition`. -/
inductive PageTransition where
  | Reset
  | Next
  | Previous
deriving Repr, DecidableEq

/-- Mirror of `PaginationPlan`. -/
inductive PaginationPlan where
  | Keyset (key_column : String) (first_key last_key : Option String)
  | Offset
deriving Repr, DecidableEq

/-- Mirror of `PaginationState`. -/
structure PaginationState where
  database : Option String
  table : String
  page_size : Nat
  page_index : Nat
  last_page_row_count : Nat
  plan : PaginationPlan
deriving Repr, DecidableEq

/-- The fields of `TuiApp` read and written by `run_pagination_transition`,
`finalize_pagination_after_query` and `pagination_capabilities`.  `has_results`
is the stored flag of the reducer, not a derived value. -/
structure TuiPagFrag where
  pagination_state : Option PaginationState
  pending_page_transition : Option PageTransition
  status_line : String
  result_columns : List String
  schema_columns : List String
  results : ResultsRingBuffer QueryRow
  has_results : Bool
deriving Repr, DecidableEq

/-- Mirror of `extract_key_bounds`: locate the key column case-insensitively
and read its value from the first and last buffered row. -/
def extract_key_bounds (results : ResultsRingBuffer QueryRow)
    (columns : List String) (key_column : String) :
    Option String × Option String :=
  match columns.findIdx? (fun column => eqIgnoreAsciiCase column.data key_column.data) with
  | none => (none, none)
  | some key_index =>
    let first := (results.get 0).bind (fun row => row.values.get? key_index)
    let last :=
      if results.len = 0 then none
      else (results.get (results.len - 1)).bind (fun row => row.values.get? key_index)
    (first, last)

/-- Mirror of `TuiApp::run_pagination_transition`.  The SQL builder
`pagination_sql` (which delegates to the SQL generator) is passed as a
parameter, and the trailing call `execute_sql_with_guard(sql)` is modelled as
the returned `Option String`: `some sql` when a query is issued, `none` when
the transition is rejected before any query is built. -/
def run_pagination_transition
    (paginationSql : PaginationState → PageTransition → Except String String)
    (app : TuiPagFrag) (transition : PageTransition) : TuiPagFrag × Option String :=
  match app.pagination_state with
  | none =>
    ({ app with status_line := "Pagination is not active for the current result set" },
      none)
  | some state =>
    if transition = PageTransition.Previous && state.page_index = 0 then
      ({ app with status_line := "Already at the first page" }, none)
    else
      match paginationSql state transition with
      | .error error =>
        ({ app with status_line := "Pagination unavailable: " ++ error }, none)
      | .ok sql =>
        let app1 :=
          if app.schema_columns ≠ [] then { app with result_columns := app.schema_columns }
          else app
        ({ app1 with pending_page_transition := some transition }, some sql)

/-- Mirror of `TuiApp::finalize_pagination_after_query`.  `page_index` uses
`saturating_add`/`saturating_sub` in the source; `Nat` addition by one and
truncated subtraction model them (see the header note on counters). -/
def finalize_pagination_after_query (app : TuiPagFrag) : TuiPagFrag :=
  match app.pending_page_transition with
  | none => app
  | some transition =>
    let app := { app with pending_page_transition := none }
    let row_count := app.results.len
    let key_bounds := app.pagination_state.bind (fun state =>
      match state.plan with
      | .Keyset key_column _ _ =>
        some (extract_key_bounds app.results app.result_columns key_column)
      | .Offset => none)
    match app.pagination_state with
    | none => app
    | some state =>
      let state := { state with last_page_row_count := row_count }
      let state :=
        match transition with
        | .Reset => { state with page_index := 0 }
        | .Next =>
          if row_count > 0 then { state with page_index := state.page_index + 1 }
          else state
        | .Previous =>
          if row_count > 0 then { state with page_index := state.page_index - 1 }
          else state
      let state :=
        match state.plan, key_bounds with
        | .Keyset key_column _ _, some (first, last) =>
          { state with plan := .Keyset key_column first last }
        | _, _ => state
      { app with pagination_state := some state }

/-- Mirror of `TuiApp::pagination_capabilities`, returning
`(pagination_enabled, can_page_next, can_page_previous)`. -/
def pagination_capabilities (app : TuiPagFrag) : Bool × Bool × Bool :=
  match app.pagination_state with
  | none => (false, false, false)
  | some state =>
    let can_page_next :=
      app.has_results && decide (state.page_size ≤ state.last_page_row_count)
    let can_page_previous := decide (0 < state.page_index)
    (true, can_page_next, can_page_previous)

/-- Mirror of `DirectionKey`. -/
inductive DirectionKey where
  | Up
  | Down
  | Left
  | Right
deriving Repr, DecidableEq

/-- Mirror of the closed message alphabet `Msg` of the reducer. -/
inductive Msg where
  | Quit
  | GoConnectionWizard
  | ToggleHelp
  | NextPane
  | TogglePalette
  | TogglePerfOverlay
  | ToggleSafeMode
  | Submit
  | CancelQuery
  | Navigate (direction : DirectionKey)
  | InvokeActionSlot (index : Nat)
  | InputChar (c : Char)
  | Backspace
  | ClearInput
  | Connect
  | Tick
deriving Repr, DecidableEq

/-- The messages exempt from the exit-pending guard at the top of
`TuiApp::handle`. -/
def msgExemptFromExitGuard : Msg → Bool
  | .Quit => true
  | .TogglePalette => true
  | .Tick => true
  | .CancelQuery => true
  | _ => false

/-- The messages intercepted by the results-search mode block of
`TuiApp::handle` (all others fall through to the main match). -/
def msgInterceptedBySearch : Msg → Bool
  | .InputChar _ => true
  | .Backspace => true
  | .ClearInput => true
  | .Submit => true
  | .TogglePalette => true
  | _ => false

/-- Status line set by the exit-pending guard. -/
def exitPendingStatus : String :=
  "Exit pending. Press Ctrl+C to confirm, F10 to exit now, Esc to cancel."

/-- Status line set when CancelQuery starts the exit confirmation. -/
def exitConfirmStatus : String :=
  "No active query. Exit myr? Press Ctrl+C again to confirm, F10 to exit now, Esc to cancel."

/-- The fields of `TuiApp` that the exit-confirmation state machine reads and
writes.  `error_panel_open` stands for `error_panel.is_some()` and
`query_cancellation_present` for `query_cancellation.is_some()`. -/
structure TuiExitFrag where
  exit_confirmation : Bool
  should_quit : Bool
  query_running : Bool
  cancel_requested : Bool
  error_panel_open : Bool
  results_search_mode : Bool
  query_cancellation_present : Bool
  status_line : String
deriving Repr, DecidableEq

/-- Mirror of `TuiApp::handle` on the exit-confirmation fragment.  The parts
of the reducer that do not bear on exit confirmation are abstracted:
`panelRest` is `handle_error_panel_input`, `searchRest` the results-search
block, `onTick` the `Tick` arm, and `mainRest` every main-match arm other than
`Quit`, `CancelQuery` and the exit-pending branch of `TogglePalette`.  All
theorems below hold for arbitrary values of these parameters.  The modelled
paths follow the source exactly: the exit-pending guard first (which only
rewrites the status line), then the error-panel and results-search dispatch,
then the main match. -/
def handleExitMachine
    (panelRest searchRest mainRest : TuiExitFrag → Msg → TuiExitFrag)
    (onTick : TuiExitFrag → TuiExitFrag)
    (app : TuiExitFrag) (msg : Msg) : TuiExitFrag :=
  if app.exit_confirmation && !msgExemptFromExitGuard msg then
    { app with status_line := exitPendingStatus }
  else if app.error_panel_open then panelRest app msg
  else if app.results_search_mode && msgInterceptedBySearch msg then searchRest app msg
  else
    match msg with
    | .Quit => { app with should_quit := true }
    | .CancelQuery =>
      if !app.query_running then
        if app.exit_confirmation then { app with should_quit := true }
        else { app with exit_confirmation := true, status_line := exitConfirmStatus }
      else
        let app := { app with cancel_requested := true }
        if app.query_cancellation_present then
          { app with status_line := "Cancelling query..." }
        else
          { app with query_running := false, status_line := "Cancel requested" }
    | .TogglePalette =>
      if app.exit_confirmation then
        { app with exit_confirmation := false, status_line := "Exit canceled" }
      else mainRest app msg
    | .Tick => onTick app
    | _ => mainRest app msg

/-! ## Claim C1: empty risk reasons mean a single safe-read statement -/

/-- C1.  For every SQL string `s`, if `assess_sql_safety s` returns an
assessment with an empty reasons list, then the leading uppercased keyword of
every statement produced by the quote-and-comment-aware splitter is in the
safe-read set, and the statement count is at most 1. -/
theorem assess_sql_safety_empty_reasons_safe_read (s : String)
    (h : (assess_sql_safety s).reasons = []) :
    (assess_sql_safety s).statement_count ≤ 1 ∧
    ∀ st ∈ split_statements s, ∀ kw, first_keyword st = some kw →
      is_safe_read_keyword kw = true := by
  simp only [assess_sql_safety] at h
  rcases List.append_eq_nil.mp h with ⟨h1, h2⟩
  constructor
  · simp only [assess_sql_safety]
    by_contra hgt
    rw [if_pos (by omega)] at h1
    exact List.cons_ne_nil _ _ h1
  · intro st hst kw hkw
    by_contra hsafe
    have hsafe' : is_safe_read_keyword kw = false := by
      rwa [Bool.not_eq_true] at hsafe
    have hne : statement_risk st ≠ [] := by
      cases hw : is_write_keyword kw <;> cases hd : is_ddl_keyword kw <;>
        cases ht : is_transaction_keyword kw <;>
        cases hm : is_session_mutation_keyword kw <;>
        simp [statement_risk, hkw, hsafe', hw, hd, ht, hm]
    obtain ⟨r, hr⟩ := List.exists_mem_of_ne_nil _ hne
    have hmem : r ∈ (split_statements s).flatMap statement_risk :=
      List.mem_flatMap.mpr ⟨st, hst, hr⟩
    rw [h2] at hmem
    exact List.not_mem_nil r hmem

/-- Witness for C1 at the concrete input `SELECT 1`. -/
theorem assess_sql_safety_empty_reasons_safe_read_witness :
    (assess_sql_safety "SELECT 1").reasons = [] ∧
    ((assess_sql_safety "SELECT 1").statement_count ≤ 1 ∧
    ∀ st ∈ split_statements "SELECT 1", ∀ kw, first_keyword st = some kw →
      is_safe_read_keyword kw = true) :=
  ⟨by decide, assess_sql_safety_empty_reasons_safe_read "SELECT 1" (by decide)⟩

/-! ## Claims C2 and C3: the confirmation protocol of the safe-mode guard -/

/-- Looking up a key just inserted returns the inserted value. -/
theorem mapLookup_mapInsert_self (key : String) (value : Nat)
    (m : List (String × Nat)) : mapLookup key (mapInsert key value m) = some value := by
  simp [mapLookup, mapInsert, List.find?]

/-- Looking up an erased key fails. -/
theorem mapLookup_mapErase_self (key : String) (m : List (String × Nat)) :
    mapLookup key (mapErase key m) = none := by
  have hfind : List.find? (fun p => p.1 = key) (m.filter (fun p => p.1 ≠ key)) = none := by
    rw [List.find?_eq_none]
    intro x hx
    have hne := (List.mem_filter.mp hx).2
    simp only [decide_not, Bool.not_eq_true', decide_eq_false_iff_not] at hne
    simpa using hne
  simp [mapLookup, mapErase, hfind]

/-- After any `confirm` call, the token is no longer in the pending map. -/
theorem confirm_pending_lookup_none (fp : String → Nat) (g : SafeModeGuard)
    (t : ConfirmationToken) (sql : String) :
    mapLookup t.as_str
      (SafeModeGuard.confirm fp g t sql).1.pending_confirmations = none := by
  unfold SafeModeGuard.confirm
  cases hl : mapLookup t.as_str g.pending_confirmations with
  | none => simpa using hl
  | some stored =>
    dsimp only
    split <;> simp [mapLookup_mapErase_self]

/-- When the token is absent, `confirm` leaves the guard unchanged and fails
with `InvalidToken`. -/
theorem confirm_of_lookup_none (fp : String → Nat) (g : SafeModeGuard)
    (t : ConfirmationToken) (sql : String)
    (h : mapLookup t.as_str g.pending_confirmations = none) :
    SafeModeGuard.confirm fp g t sql = (g, .error .InvalidToken) := by
  unfold SafeModeGuard.confirm
  rw [h]

/-- When the token is present with stored fingerprint `stored`, `confirm`
erases it and compares `stored` against the fingerprint of the submitted
SQL. -/
theorem confirm_of_lookup_some (fp : String → Nat) (g : SafeModeGuard)
    (t : ConfirmationToken) (sql : String) (stored : Nat)
    (h : mapLookup t.as_str g.pending_confirmations = some stored) :
    SafeModeGuard.confirm fp g t sql =
      ({ g with pending_confirmations := mapErase t.as_str g.pending_confirmations },
        if stored ≠ fp (assess_sql_safety sql).normalized_sql then .error .SqlMismatch
        else .ok ()) := by
  unfold SafeModeGuard.confirm
  rw [h]
  dsimp only
  split <;> simp_all

/-- Inversion of a `RequireConfirmation` result of `evaluate`: the minted
token is bound, in the new pending map, to the fingerprint of the normalized
input. -/
theorem evaluate_require_confirmation_inv (fp : String → Nat)
    (g g1 : SafeModeGuard) (s1 : String) (t : ConfirmationToken)
    (a : SqlSafetyAssessment)
    (hev : SafeModeGuard.evaluate fp g s1 = (g1, .RequireConfirmation t a)) :
    a = assess_sql_safety s1 ∧
    g1.pending_confirmations =
      mapInsert t.as_str (fp (assess_sql_safety s1).normalized_sql)
        g.pending_confirmations := by
  simp only [SafeModeGuard.evaluate] at hev
  split at hev
  · exact absurd (congrArg Prod.snd hev) (by simp)
  · rw [Prod.mk.injEq] at hev
    obtain ⟨hg1, hdec⟩ := hev
    injection hdec with ht ha
    subst hg1
    subst ha
    subst ht
    exact ⟨rfl, rfl⟩

/-- C2.  For every fingerprint function, every enabled guard and SQL `s1`
whose evaluation mints a token `t`: `confirm t s2` removes `t` from the
pending map; it returns `Ok` exactly when the fingerprint of the normalized
form of `s2` equals the fingerprint stored for `t` (that of `s1`); it fails
with `SqlMismatch` exactly when the fingerprints differ; and `confirm` of any
token absent from the pending map fails with `InvalidToken`. -/
theorem safe_mode_confirm_contract (fp : String → Nat) (g g1 : SafeModeGuard)
    (s1 s2 : String) (t : ConfirmationToken) (a : SqlSafetyAssessment)
    (hen : g.enabled = true)
    (hev : SafeModeGuard.evaluate fp g s1 = (g1, .RequireConfirmation t a)) :
    mapLookup t.as_str
      (SafeModeGuard.confirm fp g1 t s2).1.pending_confirmations = none ∧
    ((SafeModeGuard.confirm fp g1 t s2).2 = .ok () ↔
      fp (assess_sql_safety s2).normalized_sql =
        fp (assess_sql_safety s1).normalized_sql) ∧
    ((SafeModeGuard.confirm fp g1 t s2).2 = .error .SqlMismatch ↔
      fp (assess_sql_safety s2).normalized_sql ≠
        fp (assess_sql_safety s1).normalized_sql) ∧
    ∀ (g' : SafeModeGuard) (s' : String),
      mapLookup t.as_str g'.pending_confirmations = none →
      SafeModeGuard.confirm fp g' t s' = (g', .error .InvalidToken) := by
  obtain ⟨-, hpend⟩ := evaluate_require_confirmation_inv fp g g1 s1 t a hev
  have hlook : mapLookup t.as_str g1.pending_confirmations =
      some (fp (assess_sql_safety s1).normalized_sql) := by
    rw [hpend]
    exact mapLookup_mapInsert_self _ _ _
  have hconf := confirm_of_lookup_some fp g1 t s2 _ hlook
  refine ⟨confirm_pending_lookup_none fp g1 t s2, ?_, ?_, ?_⟩
  · rw [hconf]
    by_cases hx : fp (assess_sql_safety s1).normalized_sql =
        fp (assess_sql_safety s2).normalized_sql <;> simp [hx] <;> omega
  · rw [hconf]
    by_cases hx : fp (assess_sql_safety s1).normalized_sql =
        fp (assess_sql_safety s2).normalized_sql <;> simp [hx] <;> omega
  · intro g' s' h
    exact confirm_of_lookup_none fp g' t s' h

/-- Witness for C2: confirming the minted token with different SQL (under the
length fingerprint) fails with `SqlMismatch`. -/
theorem safe_mode_confirm_contract_witness :
    (SafeModeGuard.confirm (fun s => s.length)
      ⟨true, 1, [("confirm-1-000000000000001c", 28)]⟩
      ⟨"confirm-1-000000000000001c"⟩ "DELETE FROM users WHERE id=22").2 =
      .error .SqlMismatch :=
  (safe_mode_confirm_contract (fun s => s.length) (SafeModeGuard.new true)
    ⟨true, 1, [("confirm-1-000000000000001c", 28)]⟩
    "DELETE FROM users WHERE id=1" "DELETE FROM users WHERE id=22"
    ⟨"confirm-1-000000000000001c"⟩
    ⟨1, some "DELETE", [.WriteOperation "DELETE"], "DELETE FROM users WHERE id=1"⟩
    rfl (by decide)).2.2.1.mpr (by decide)

/-- C3.  Tokens are single-use regardless of outcome: once `confirm` has been
called on a minted token, any further `confirm` of the same token fails with
`InvalidToken`. -/
theorem safe_mode_token_single_use (fp : String → Nat) (g g1 : SafeModeGuard)
    (s1 sql sql' : String) (t : ConfirmationToken) (a : SqlSafetyAssessment)
    (hen : g.enabled = true)
    (hev : SafeModeGuard.evaluate fp g s1 = (g1, .RequireConfirmation t a)) :
    (SafeModeGuard.confirm fp (SafeModeGuard.confirm fp g1 t sql).1 t sql').2 =
      .error .InvalidToken := by
  rw [confirm_of_lookup_none fp _ t sql' (confirm_pending_lookup_none fp g1 t sql)]

/-- Witness for C3: Ok then InvalidToken on the same token and SQL. -/
theorem safe_mode_token_single_use_witness :
    (SafeModeGuard.confirm (fun s => s.length)
      (SafeModeGuard.confirm (fun s => s.length)
        ⟨true, 1, [("confirm-1-000000000000001c", 28)]⟩
        ⟨"confirm-1-000000000000001c"⟩ "DELETE FROM users WHERE id=1").1
      ⟨"confirm-1-000000000000001c"⟩ "DELETE FROM users WHERE id=1").2 =
      .error .InvalidToken :=
  safe_mode_token_single_use (fun s => s.length) (SafeModeGuard.new true)
    ⟨true, 1, [("confirm-1-000000000000001c", 28)]⟩
    "DELETE FROM users WHERE id=1" "DELETE FROM users WHERE id=1"
    "DELETE FROM users WHERE id=1" ⟨"confirm-1-000000000000001c"⟩
    ⟨1, some "DELETE", [.WriteOperation "DELETE"], "DELETE FROM users WHERE id=1"⟩
    rfl (by decide)

/-! ## Claim C4: ring-buffer invariants -/

/-- Single-push facts: the capacity is unchanged, the count always increments,
and a push on a full buffer drops the oldest element before appending. -/
theorem ResultsRingBuffer.push_spec (b : ResultsRingBuffer α) (row : α) :
    (b.push row).capacity = b.capacity ∧
    (b.push row).total_rows_seen = b.total_rows_seen + 1 ∧
    (b.rows.length = b.capacity → (b.push row).rows = b.rows.tail ++ [row]) ∧
    (b.rows.length ≠ b.capacity → (b.push row).rows = b.rows ++ [row]) := by
  refine ⟨rfl, rfl, fun h => ?_, fun h => ?_⟩ <;> simp [ResultsRingBuffer.push, h]

/-- Generalized invariant carried through a sequence of pushes. -/
theorem ResultsRingBuffer.pushAll_inv {C : Nat} (hC : 0 < C) (xs : List α) :
    ∀ b : ResultsRingBuffer α, b.capacity = C → b.rows.length ≤ C →
      (b.pushAll xs).capacity = C ∧ (b.pushAll xs).rows.length ≤ C ∧
      (b.pushAll xs).total_rows_seen = b.total_rows_seen + xs.length := by
  induction xs with
  | nil => intro b hcap hlen; exact ⟨hcap, hlen, rfl⟩
  | cons x xs ih =>
    intro b hcap hlen
    have hlen' : (b.push x).rows.length ≤ C := by
      by_cases hfull : b.rows.length = b.capacity
      · rw [(b.push_spec x).2.2.1 hfull]
        simp [List.length_tail]
        omega
      · rw [(b.push_spec x).2.2.2 hfull]
        simp
        omega
    have h := ih (b.push x) ((b.push_spec x).1.trans hcap) hlen'
    simp only [ResultsRingBuffer.pushAll, List.foldl_cons] at h ⊢
    refine ⟨h.1, h.2.1, ?_⟩
    rw [h.2.2, (b.push_spec x).2.1]
    simp only [List.length_cons]
    omega

/-- The row count grows by exactly the number of pushes. -/
theorem ResultsRingBuffer.pushAll_total_rows_seen (xs : List α) :
    ∀ b : ResultsRingBuffer α,
      (b.pushAll xs).total_rows_seen = b.total_rows_seen + xs.length := by
  induction xs with
  | nil => intro b; rfl
  | cons x xs ih =>
    intro b
    have h := ih (b.push x)
    simp only [ResultsRingBuffer.pushAll] at h ⊢
    simp only [List.foldl_cons, h, (b.push_spec x).2.1, List.length_cons]
    omega

/-- C4.  For every sequence of pushes into a fresh buffer of capacity `C > 0`:
the length stays at most `C`, `total_rows_seen` equals the number of pushes,
`earliest_buffered_index` is `total_rows_seen − len`, the latest buffered
index is `total_rows_seen − 1` whenever the buffer is non-empty, and each
push on a full buffer evicts the oldest element before appending while always
incrementing `total_rows_seen`. -/
theorem results_ring_buffer_invariants (α : Type) (C : Nat) (hC : 0 < C)
    (xs : List α) :
    (((ResultsRingBuffer.new α C).pushAll xs).len ≤ C ∧
     ((ResultsRingBuffer.new α C).pushAll xs).total_rows_seen = xs.length ∧
     ((ResultsRingBuffer.new α C).pushAll xs).earliest_buffered_index =
       ((ResultsRingBuffer.new α C).pushAll xs).total_rows_seen -
         ((ResultsRingBuffer.new α C).pushAll xs).len ∧
     (((ResultsRingBuffer.new α C).pushAll xs).is_empty = false →
       ((ResultsRingBuffer.new α C).pushAll xs).latest_buffered_index =
         some (((ResultsRingBuffer.new α C).pushAll xs).total_rows_seen - 1))) ∧
    ∀ (b : ResultsRingBuffer α) (row : α),
      (b.push row).total_rows_seen = b.total_rows_seen + 1 ∧
      (b.len = b.capacity → (b.push row).rows = b.rows.tail ++ [row]) := by
  have hinv := ResultsRingBuffer.pushAll_inv hC xs (ResultsRingBuffer.new α C)
    rfl (by simp [ResultsRingBuffer.new])
  refine ⟨⟨hinv.2.1, by simpa [ResultsRingBuffer.new] using hinv.2.2, rfl, fun hne => ?_⟩,
    fun b row => ⟨(b.push_spec row).2.1, fun h => (b.push_spec row).2.2.1 h⟩⟩
  simp only [ResultsRingBuffer.is_empty] at hne
  simp [ResultsRingBuffer.latest_buffered_index, hne]

/-- Witness for C4 at capacity 2 with three pushes. -/
theorem results_ring_buffer_invariants_witness :
    0 < 2 ∧
    (((ResultsRingBuffer.new String 2).pushAll ["a", "b", "c"]).len ≤ 2 ∧
     ((ResultsRingBuffer.new String 2).pushAll ["a", "b", "c"]).total_rows_seen = 3 ∧
     ((ResultsRingBuffer.new String 2).pushAll ["a", "b", "c"]).earliest_buffered_index =
       ((ResultsRingBuffer.new String 2).pushAll ["a", "b", "c"]).total_rows_seen -
         ((ResultsRingBuffer.new String 2).pushAll ["a", "b", "c"]).len ∧
     (((ResultsRingBuffer.new String 2).pushAll ["a", "b", "c"]).is_empty = false →
       ((ResultsRingBuffer.new String 2).pushAll ["a", "b", "c"]).latest_buffered_index =
         some (((ResultsRingBuffer.new String 2).pushAll ["a", "b", "c"]).total_rows_seen - 1))) :=
  ⟨by decide, (results_ring_buffer_invariants String 2 (by decide) ["a", "b", "c"]).1⟩

/-! ## Claim C5: streaming under cooperative cancellation -/

/-- If the cancellation flag is first observed set at the check after `k`
rows (with `k` at most the stream length), the loop pushes exactly the first
`k` rows, calls `stream.cancel()`, and reports `was_cancelled = true`. -/
theorem executeStreamingLoop_cancelled (cancellation : Nat → Bool) :
    ∀ (k : Nat) (rows : List QueryRow) (buffer : ResultsRingBuffer QueryRow)
      (n : Nat), k ≤ rows.length →
      (∀ j, j < k → cancellation (n + j) = false) →
      cancellation (n + k) = true →
      executeStreamingLoop cancellation (.ok ()) (rows.map .ok) buffer n =
        .ok (⟨n + k, true⟩, buffer.pushAll (rows.take k), true) := by
  intro k
  induction k with
  | zero =>
    intro rows buffer n _ _ hk
    rw [executeStreamingLoop.eq_def]
    simp only [Nat.add_zero] at hk
    simp [hk, ResultsRingBuffer.pushAll]
  | succ k ih =>
    intro rows buffer n hlen hlow hk
    have h0 : cancellation n = false := by simpa using hlow 0 (Nat.succ_pos k)
    cases rows with
    | nil => simp at hlen
    | cons r rest =>
      rw [executeStreamingLoop.eq_def]
      simp only [h0, List.map_cons]
      have := ih rest (buffer.push r) (n + 1)
        (by simpa using hlen)
        (fun j hj => by
          have := hlow (j + 1) (by omega)
          simpa [Nat.add_assoc, Nat.add_comm 1 j] using this)
        (by
          have : n + 1 + k = n + (k + 1) := by omega
          rw [this]; exact hk)
      simp only [Bool.false_eq_true, if_false]
      rw [this]
      have harith : n + 1 + k = n + (k + 1) := by omega
      rw [harith]
      rfl

/-- If the cancellation flag is never observed set, the loop drains the
stream, pushes every row, does not call `stream.cancel()`, and reports
`was_cancelled = false`. -/
theorem executeStreamingLoop_drained (cancellation : Nat → Bool) :
    ∀ (rows : List QueryRow) (buffer : ResultsRingBuffer QueryRow) (n : Nat),
      (∀ j, j ≤ rows.length → cancellation (n + j) = false) →
      executeStreamingLoop cancellation (.ok ()) (rows.map .ok) buffer n =
        .ok (⟨n + rows.length, false⟩, buffer.pushAll rows, false) := by
  intro rows
  induction rows with
  | nil =>
    intro buffer n h
    have h0 : cancellation n = false := by simpa using h 0 (Nat.zero_le 0)
    rw [executeStreamingLoop.eq_def]
    simp [h0, ResultsRingBuffer.pushAll]
  | cons r rest ih =>
    intro buffer n h
    have h0 : cancellation n = false := by simpa using h 0 (Nat.zero_le _)
    rw [executeStreamingLoop.eq_def]
    simp only [h0, List.map_cons, Bool.false_eq_true, if_false]
    have := ih (buffer.push r) (n + 1) (fun j hj => by
      have := h (j + 1) (by simpa using Nat.succ_le_succ hj)
      simpa [Nat.add_assoc, Nat.add_comm 1 j] using this)
    rw [this]
    have harith : n + 1 + rest.length = n + (r :: rest).length := by
      simp [List.length_cons]; omega
    rw [harith]
    rfl

/-- C5.  For every error-free backend stream and cancellation observation
sequence: if cancellation is first observed set at the check before the
`k`-th row fetch, `execute_streaming` calls `stream.cancel()` and returns a
summary with `was_cancelled = true` and `rows_streamed = k`; if the stream is
exhausted without an observed cancellation it reports `was_cancelled = false`
with every row pushed; and in every successful outcome `rows_streamed` counts
the rows pulled from the backend (the growth of `total_rows_seen`), not the
rows resident in the buffer. -/
theorem query_runner_streaming_contract (cancellation : Nat → Bool)
    (rows : List QueryRow) (buffer : ResultsRingBuffer QueryRow) :
    (∀ k, k ≤ rows.length → (∀ j, j < k → cancellation j = false) →
      cancellation k = true →
      execute_streaming (.ok (rows.map .ok)) (.ok ()) cancellation buffer =
        .ok (⟨k, true⟩, buffer.pushAll (rows.take k), true)) ∧
    ((∀ j, j ≤ rows.length → cancellation j = false) →
      execute_streaming (.ok (rows.map .ok)) (.ok ()) cancellation buffer =
        .ok (⟨rows.length, false⟩, buffer.pushAll rows, false)) ∧
    ∀ (summary : QueryExecutionSummary) (buf : ResultsRingBuffer QueryRow)
      (cancel_called : Bool),
      execute_streaming (.ok (rows.map .ok)) (.ok ()) cancellation buffer =
        .ok (summary, buf, cancel_called) →
      buf.total_rows_seen = buffer.total_rows_seen + summary.rows_streamed := by
  refine ⟨?_, ?_, ?_⟩
  · intro k hk hlow hhit
    have := executeStreamingLoop_cancelled cancellation k rows buffer 0
      hk (fun j hj => by simpa using hlow j hj) (by simpa using hhit)
    simpa [execute_streaming] using this
  · intro hnone
    have := executeStreamingLoop_drained cancellation rows buffer 0
      (fun j hj => by simpa using hnone j hj)
    simpa [execute_streaming] using this
  · intro summary buf cancel_called hrun
    by_cases hex : ∃ j, j ≤ rows.length ∧ cancellation j = true
    · obtain ⟨hle, hhit⟩ := Nat.find_spec hex
      have hlow : ∀ j, j < Nat.find hex → cancellation j = false := by
        intro j hj
        have hmin := Nat.find_min hex hj
        by_contra hc
        exact hmin ⟨by omega, by simpa using hc⟩
      have hchar := executeStreamingLoop_cancelled cancellation (Nat.find hex) rows
        buffer 0 hle (fun j hj => by simpa using hlow j hj) (by simpa using hhit)
      rw [execute_streaming] at hrun
      rw [hchar] at hrun
      injection hrun with h
      rw [Prod.mk.injEq] at h
      obtain ⟨hs, hrest⟩ := h
      rw [Prod.mk.injEq] at hrest
      obtain ⟨hb, -⟩ := hrest
      subst hs
      rw [← hb, ResultsRingBuffer.pushAll_total_rows_seen]
      simp [List.length_take, Nat.min_eq_left hle]
    · push_neg at hex
      have hnone : ∀ j, j ≤ rows.length → cancellation j = false := by
        intro j hj
        have := hex j hj
        simpa using this
      have := executeStreamingLoop_drained cancellation rows buffer 0
        (fun j hj => by simpa using hnone j hj)
      rw [execute_streaming] at hrun
      rw [this] at hrun
      injection hrun with h
      rw [Prod.mk.injEq] at h
      obtain ⟨hs, hrest⟩ := h
      rw [Prod.mk.injEq] at hrest
      obtain ⟨hb, -⟩ := hrest
      subst hs
      rw [← hb, ResultsRingBuffer.pushAll_total_rows_seen]
      simp


/-- Witness for C5: a three-row stream into a capacity-2 buffer without
cancellation streams all three rows (more than remain resident) and is not
marked cancelled. -/
theorem query_runner_streaming_contract_witness :
    execute_streaming
      (.ok ([⟨["1"]⟩, ⟨["2"]⟩, ⟨["3"]⟩].map .ok)) (.ok ()) (fun _ => false)
      (ResultsRingBuffer.new QueryRow 2) =
      .ok (⟨([⟨["1"]⟩, ⟨["2"]⟩, ⟨["3"]⟩] : List QueryRow).length, false⟩,
        (ResultsRingBuffer.new QueryRow 2).pushAll [⟨["1"]⟩, ⟨["2"]⟩, ⟨["3"]⟩],
        false) :=
  (query_runner_streaming_contract (fun _ => false) [⟨["1"]⟩, ⟨["2"]⟩, ⟨["3"]⟩]
    (ResultsRingBuffer.new QueryRow 2)).2.1 (fun _ _ => rfl)

/-! ## Claim C6: connect fails atomically -/

/-- C6.  `connect` fails with `AlreadyConnected` whenever an active session
exists, and on any failing connect (backend connect error or health-ping
error) the manager is left exactly as it was; in particular from the
disconnected state the active profile stays `none` and the status remains
disconnected. -/
theorem connection_manager_connect_contract (C : Type) (m : ConnectionManager C)
    (profile : ConnectionProfile) (connectResult : Except BackendError C)
    (pingResult : C → Except BackendError Unit) (latency now : Nat) :
    (∀ a, m.active = some a →
      m.connect profile connectResult pingResult latency now =
        (m, .error (.AlreadyConnected a.profile.name))) ∧
    (∀ e, (m.connect profile connectResult pingResult latency now).2 = .error e →
      (m.connect profile connectResult pingResult latency now).1 = m) ∧
    (m.active = none →
      ∀ e, (m.connect profile connectResult pingResult latency now).2 = .error e →
        (m.connect profile connectResult pingResult latency now).1.active_profile = none ∧
        ((m.connect profile connectResult pingResult latency now).1.status).is_connected
          = false) := by
  refine ⟨?_, ?_, ?_⟩
  · intro a ha
    simp [ConnectionManager.connect, ha]
  · intro e he
    cases hact : m.active with
    | some a => simp [ConnectionManager.connect, hact]
    | none =>
      cases connectResult with
      | error e' => simp [ConnectionManager.connect, hact]
      | ok handle =>
        cases hping : pingResult handle with
        | error e' => simp [ConnectionManager.connect, hact, hping]
        | ok u => simp [ConnectionManager.connect, hact, hping] at he
  · intro hact e he
    have h1 : (m.connect profile connectResult pingResult latency now).1 = m := by
      cases connectResult with
      | error e' => simp [ConnectionManager.connect, hact]
      | ok handle =>
        cases hping : pingResult handle with
        | error e' => simp [ConnectionManager.connect, hact, hping]
        | ok u => simp [ConnectionManager.connect, hact, hping] at he
    rw [h1]
    constructor
    · simp [ConnectionManager.active_profile, hact]
    · simp [ConnectionManager.status, hact]

/-- Witness for C6: a failing backend connect from the disconnected state
retains no session. -/
theorem connection_manager_connect_contract_witness :
    ((ConnectionManager.new Unit).connect ⟨"local", "127.0.0.1", 3306, "root", none⟩
      (.error ⟨"connect failed"⟩) (fun _ => .ok ()) 5 7).1.active_profile = none ∧
    (((ConnectionManager.new Unit).connect ⟨"local", "127.0.0.1", 3306, "root", none⟩
      (.error ⟨"connect failed"⟩) (fun _ => .ok ()) 5 7).1.status).is_connected = false :=
  (connection_manager_connect_contract Unit (ConnectionManager.new Unit)
    ⟨"local", "127.0.0.1", 3306, "root", none⟩ (.error ⟨"connect failed"⟩)
    (fun _ => .ok ()) 5 7).2.2 rfl (.Backend ⟨"connect failed"⟩) rfl

/-! ## Claim C7: `suggest_preview_limit` -/

/-- The token splitter never returns an empty token list. -/
theorem tokenSplit_ne_nil : ∀ l : List Char, tokenSplit l ≠ [] := by
  intro l
  cases l with
  | nil => simp [tokenSplit]
  | cons c cs =>
    rw [tokenSplit]
    split
    · simp
    · cases htl : tokenSplit cs <;> simp

/-- Splitting distributes over a separator character. -/
theorem tokenSplit_append_sep (c : Char) (hc : limitSeparator c = true) :
    ∀ a b : List Char, tokenSplit (a ++ c :: b) = tokenSplit a ++ tokenSplit b := by
  intro a
  induction a with
  | nil => intro b; simp [tokenSplit, hc]
  | cons d a ih =>
    intro b
    by_cases hd : limitSeparator d = true
    · simp only [List.cons_append, tokenSplit, hd, if_true, List.append_eq, ih b]
    · rw [Bool.not_eq_true] at hd
      simp only [List.cons_append, tokenSplit, hd, Bool.false_eq_true, if_false,
        List.append_eq, ih b]
      cases ha : tokenSplit a with
      | nil => exact absurd ha (tokenSplit_ne_nil a)
      | cons t ts => simp

/-- A run without separators is a single token. -/
theorem tokenSplit_no_sep :
    ∀ l : List Char, (∀ x ∈ l, limitSeparator x = false) → tokenSplit l = [l] := by
  intro l
  induction l with
  | nil => intro _; rfl
  | cons c cs ih =>
    intro h
    have hc := h c (List.mem_cons_self c cs)
    rw [tokenSplit, hc]
    simp only [Bool.false_eq_true, if_false]
    rw [ih (fun x hx => h x (List.mem_cons_of_mem c hx))]

/-- The decimal digit characters. -/
def decimalDigitChars : List Char :=
  ['0', '1', '2', '3', '4', '5', '6', '7', '8', '9']

/-- The characters accumulated by `Nat.toDigitsCore` in base 10 are decimal
digits. -/
theorem toDigitsCore_mem_decimal :
    ∀ (fuel n : Nat) (ds : List Char), (∀ c ∈ ds, c ∈ decimalDigitChars) →
      ∀ c ∈ Nat.toDigitsCore 10 fuel n ds, c ∈ decimalDigitChars := by
  intro fuel
  induction fuel with
  | zero => intro n ds h c hc; exact h c hc
  | succ fuel ih =>
    intro n ds h c hc
    have hdig : Nat.digitChar (n % 10) ∈ decimalDigitChars := by
      have hlt : n % 10 < 10 := Nat.mod_lt _ (by decide)
      interval_cases h : n % 10 <;> decide
    simp only [Nat.toDigitsCore] at hc
    split at hc
    · rcases List.mem_cons.mp hc with h1 | h1
      · rw [h1]; exact hdig
      · exact h c h1
    · refine ih (n / 10) (Nat.digitChar (n % 10) :: ds) ?_ c hc
      intro x hx
      rcases List.mem_cons.mp hx with h1 | h1
      · rw [h1]; exact hdig
      · exact h x h1

/-- The decimal rendering of a natural number consists of digits. -/
theorem repr_data_decimal (n : Nat) : ∀ c ∈ (Nat.repr n).data, c ∈ decimalDigitChars := by
  intro c hc
  have : (Nat.repr n).data = Nat.toDigits 10 n := rfl
  rw [this, Nat.toDigits] at hc
  exact toDigitsCore_mem_decimal (n + 1) n [] (by simp) c hc

/-- A string of decimal digits is never the `LIMIT` keyword, case
insensitively. -/
theorem digits_not_limit (d : List Char) (hd : ∀ c ∈ d, c ∈ decimalDigitChars) :
    eqIgnoreAsciiCase d "LIMIT".data = false := by
  by_contra hcon
  rw [Bool.not_eq_false] at hcon
  unfold eqIgnoreAsciiCase at hcon
  rw [beq_iff_eq] at hcon
  cases d with
  | nil => simp at hcon
  | cons c cs =>
    have hR : "LIMIT".data.map Char.toLower = ['l', 'i', 'm', 'i', 't'] := by decide
    rw [List.map_cons, hR, List.cons_eq_cons] at hcon
    obtain ⟨h1, -⟩ := hcon
    have hc := hd c (List.mem_cons_self c cs)
    fin_cases hc <;> exact absurd h1 (by decide)

/-- Digits are not token separators. -/
theorem digits_not_separator (d : List Char) (hd : ∀ c ∈ d, c ∈ decimalDigitChars) :
    ∀ c ∈ d, limitSeparator c = false := by
  intro c hc
  have := hd c hc
  fin_cases this <;> decide

/-- C7 (amended).  `suggest_preview_limit` returns `none` exactly when the
trimmed text is empty, or the text obtained by stripping all trailing `;`
characters and re-trimming is empty, does not start with `SELECT`
(case-insensitive), or already contains a `LIMIT` token; otherwise it returns
the stripped text followed by ` LIMIT <n>`, and that returned string contains
exactly one `LIMIT` token under the non-alphanumeric/underscore split. -/
theorem suggest_preview_limit_spec (q : String) (n : Nat) :
    (suggest_preview_limit q n = none ↔
      (trimChars q.data = [] ∨
       trimChars (dropTrailingSemicolons (trimChars q.data)) = [] ∨
       startsWithSelectChars (trimChars (dropTrailingSemicolons (trimChars q.data)))
         = false ∨
       containsLimitChars (trimChars (dropTrailingSemicolons (trimChars q.data)))
         = true)) ∧
    ∀ s, suggest_preview_limit q n = some s →
      s.data = trimChars (dropTrailingSemicolons (trimChars q.data)) ++
        " LIMIT ".data ++ (Nat.repr n).data ∧
      (tokenSplit s.data).countP
        (fun token => eqIgnoreAsciiCase token "LIMIT".data) = 1 := by
  constructor
  · simp only [suggest_preview_limit]
    split_ifs with h1 h2 h3 h4 <;> simp_all
  · intro s hs
    simp only [suggest_preview_limit] at hs
    split_ifs at hs with h1 h2 h3 h4
    injection hs with hs
    have hdata : s.data = trimChars (dropTrailingSemicolons (trimChars q.data)) ++
        " LIMIT ".data ++ (Nat.repr n).data := by
      rw [← hs]
    refine ⟨hdata, ?_⟩
    rw [hdata]
    have hsp : limitSeparator ' ' = true := by decide
    have hshape :
        trimChars (dropTrailingSemicolons (trimChars q.data)) ++ " LIMIT ".data ++
          (Nat.repr n).data =
        trimChars (dropTrailingSemicolons (trimChars q.data)) ++
          ' ' :: ("LIMIT".data ++ ' ' :: (Nat.repr n).data) := by
      simp
    rw [hshape, tokenSplit_append_sep ' ' hsp, tokenSplit_append_sep ' ' hsp,
      List.countP_append, List.countP_append]
    have hA : (tokenSplit
        (trimChars (dropTrailingSemicolons (trimChars q.data)))).countP
        (fun token => eqIgnoreAsciiCase token "LIMIT".data) = 0 := by
      rw [List.countP_eq_zero]
      intro a ha
      rw [Bool.not_eq_true] at h4
      unfold containsLimitChars at h4
      rw [List.any_eq_false] at h4
      simpa using h4 a ha
    have hL : (tokenSplit "LIMIT".data).countP
        (fun token => eqIgnoreAsciiCase token "LIMIT".data) = 1 := by decide
    have hD : (tokenSplit (Nat.repr n).data).countP
        (fun token => eqIgnoreAsciiCase token "LIMIT".data) = 0 := by
      rw [tokenSplit_no_sep _ (digits_not_separator _ (repr_data_decimal n))]
      simp [digits_not_limit _ (repr_data_decimal n)]
    rw [hA, hL, hD]

/-- Witness for C7 on `SELECT * FROM users` with limit 200. -/
theorem suggest_preview_limit_spec_witness :
    ("SELECT * FROM users LIMIT 200" : String).data =
      trimChars (dropTrailingSemicolons (trimChars ("SELECT * FROM users" : String).data)) ++
        " LIMIT ".data ++ (Nat.repr 200).data ∧
    (tokenSplit ("SELECT * FROM users LIMIT 200" : String).data).countP
      (fun token => eqIgnoreAsciiCase token "LIMIT".data) = 1 :=
  (suggest_preview_limit_spec "SELECT * FROM users" 200).2
    "SELECT * FROM users LIMIT 200" (by decide)

/-- Counterexample for C7 as stated: the claim strips a single trailing `;`,
but `trim_end_matches(';')` strips them all, so on `SELECT 1;;` the code and
the claimed behaviour disagree. -/
theorem suggest_preview_limit_counterexample :
    suggest_preview_limit "SELECT 1;;" 5 = some "SELECT 1 LIMIT 5" ∧
    suggestPreviewLimitSpecOneSemicolon "SELECT 1;;" 5 = some "SELECT 1; LIMIT 5" ∧
    suggest_preview_limit "SELECT 1;;" 5 ≠
      suggestPreviewLimitSpecOneSemicolon "SELECT 1;;" 5 :=
  ⟨by decide, by decide, by decide⟩

/-! ## Claim C8: pagination monotonicity in the reducer -/

/-- C8.  In the post-execute update, a pending `Next` transition whose result
set is non-empty increases `page_index` by exactly 1; and a `Previous`
transition requested while `page_index = 0` is rejected by
`run_pagination_transition` without issuing a query and without changing the
pagination state (only the status line changes). -/
theorem pagination_monotonicity
    (paginationSql : PaginationState → PageTransition → Except String String)
    (app : TuiPagFrag) (st : PaginationState) :
    (app.pending_page_transition = some .Next → app.pagination_state = some st →
      app.results.len ≠ 0 →
      (finalize_pagination_after_query app).pagination_state.map
        (fun state => state.page_index) = some (st.page_index + 1)) ∧
    (app.pagination_state = some st → st.page_index = 0 →
      run_pagination_transition paginationSql app .Previous =
        ({ app with status_line := "Already at the first page" }, none)) := by
  constructor
  · intro hpend hstate hrows
    have hpos : ({ app with pending_page_transition := none } : TuiPagFrag).results.len
        > 0 := Nat.pos_of_ne_zero hrows
    simp only [finalize_pagination_after_query, hpend, hstate, hpos, if_true]
    split <;> simp
  · intro hstate hzero
    simp [run_pagination_transition, hstate, hzero]

/-- A concrete pagination state at page index 0, for the C8 witness. -/
def pagWitnessState : PaginationState :=
  { database := some "app", table := "events", page_size := 200,
    page_index := 0, last_page_row_count := 200, plan := .Offset }

/-- A concrete reducer fragment holding `pagWitnessState`. -/
def pagWitnessApp : TuiPagFrag :=
  { pagination_state := some pagWitnessState,
    pending_page_transition := none, status_line := "",
    result_columns := [], schema_columns := [],
    results := ResultsRingBuffer.new QueryRow 2000, has_results := true }

/-- Witness for C8: a `Previous` transition at page index 0 is rejected. -/
theorem pagination_monotonicity_witness :
    run_pagination_transition (fun _ _ => .ok "SELECT 1") pagWitnessApp
      PageTransition.Previous =
      ({ pagWitnessApp with status_line := "Already at the first page" }, none) :=
  (pagination_monotonicity (fun _ _ => .ok "SELECT 1") pagWitnessApp
    pagWitnessState).2 rfl rfl

/-! ## Claim C9: pagination capabilities -/

/-- C9 (amended).  `pagination_enabled` holds exactly when a pagination state
is present; when it is, `can_page_next` equals
`has_results && page_size ≤ last_page_row_count` (the stored `has_results`
flag is part of the condition, which the claim as stated omits) and
`can_page_previous` equals `0 < page_index`. -/
theorem pagination_capabilities_spec (app : TuiPagFrag) :
    (pagination_capabilities app).1 = app.pagination_state.isSome ∧
    ∀ st, app.pagination_state = some st →
      (pagination_capabilities app).2.1 =
        (app.has_results && decide (st.page_size ≤ st.last_page_row_count)) ∧
      (pagination_capabilities app).2.2 = decide (0 < st.page_index) := by
  constructor
  · cases h : app.pagination_state <;> simp [pagination_capabilities, h]
  · intro st h
    simp [pagination_capabilities, h]

/-- Witness for C9 at a concrete state with a full page and results. -/
theorem pagination_capabilities_spec_witness :
    (pagination_capabilities
      { pagination_state := some
          { database := none, table := "t", page_size := 200, page_index := 3,
            last_page_row_count := 200, plan := .Offset },
        pending_page_transition := none, status_line := "",
        result_columns := [], schema_columns := [],
        results := ResultsRingBuffer.new QueryRow 2000, has_results := true }).2.1 =
      (true && decide ((200 : Nat) ≤ 200)) ∧
    (pagination_capabilities
      { pagination_state := some
          { database := none, table := "t", page_size := 200, page_index := 3,
            last_page_row_count := 200, plan := .Offset },
        pending_page_transition := none, status_line := "",
        result_columns := [], schema_columns := [],
        results := ResultsRingBuffer.new QueryRow 2000, has_results := true }).2.2 =
      decide ((0 : Nat) < 3) :=
  (pagination_capabilities_spec _).2
    { database := none, table := "t", page_size := 200, page_index := 3,
      last_page_row_count := 200, plan := .Offset } rfl

/-- Counterexample for C9 as stated: with a pagination state whose
`last_page_row_count` reaches `page_size` but with `has_results = false`, the
code reports `can_page_next = false`, refuting `can_page_next` iff
`last_page_row_count ≥ page_size`. -/
theorem pagination_capabilities_counterexample :
    ¬(((pagination_capabilities
        { pagination_state := some
            { database := none, table := "t", page_size := 200, page_index := 0,
              last_page_row_count := 200, plan := .Offset },
          pending_page_transition := none, status_line := "",
          result_columns := [], schema_columns := [],
          results := ResultsRingBuffer.new QueryRow 2000,
          has_results := false }).2.1 = true) ↔ (200 : Nat) ≤ 200) := by
  decide

/-! ## Claim C10: the exit-confirmation state machine -/

/-- C10 (amended).  With no error panel open: a `CancelQuery` when no query is
running and no exit is pending sets `exit_confirmation`; a second
`CancelQuery` while pending confirms quit; `TogglePalette` while pending
(outside results-search mode) cancels the pending exit; and every other
message outside the exempt set `{Quit, TogglePalette, Tick, CancelQuery}` is
rejected by the guard with an exit-pending status line and leaves
`exit_confirmation` set. -/
theorem exit_confirmation_machine
    (panelRest searchRest mainRest : TuiExitFrag → Msg → TuiExitFrag)
    (onTick : TuiExitFrag → TuiExitFrag) (app : TuiExitFrag) :
    (app.exit_confirmation = false → app.query_running = false →
      app.error_panel_open = false →
      (handleExitMachine panelRest searchRest mainRest onTick app
        .CancelQuery).exit_confirmation = true) ∧
    (app.exit_confirmation = true → app.query_running = false →
      app.error_panel_open = false →
      (handleExitMachine panelRest searchRest mainRest onTick app
        .CancelQuery).should_quit = true) ∧
    (app.exit_confirmation = true → app.error_panel_open = false →
      app.results_search_mode = false →
      (handleExitMachine panelRest searchRest mainRest onTick app
        .TogglePalette).exit_confirmation = false) ∧
    ∀ msg, app.exit_confirmation = true → msgExemptFromExitGuard msg = false →
      handleExitMachine panelRest searchRest mainRest onTick app msg =
        { app with status_line := exitPendingStatus } ∧
      (handleExitMachine panelRest searchRest mainRest onTick app
        msg).exit_confirmation = true := by
  refine ⟨?_, ?_, ?_, ?_⟩
  · intro hexit hrun hpanel
    simp [handleExitMachine, hexit, hrun, hpanel, msgExemptFromExitGuard,
      msgInterceptedBySearch]
  · intro hexit hrun hpanel
    simp [handleExitMachine, hexit, hrun, hpanel, msgExemptFromExitGuard,
      msgInterceptedBySearch]
  · intro hexit hpanel hsearch
    simp [handleExitMachine, hexit, hpanel, hsearch, msgExemptFromExitGuard,
      msgInterceptedBySearch]
  · intro msg hexit hmsg
    have heq : handleExitMachine panelRest searchRest mainRest onTick app msg =
        { app with status_line := exitPendingStatus } := by
      simp [handleExitMachine, hexit, hmsg]
    exact ⟨heq, by rw [heq]; exact hexit⟩

/-- Witness for C10: from the idle state, `CancelQuery` starts the exit
confirmation. -/
theorem exit_confirmation_machine_witness :
    (handleExitMachine (fun a _ => a) (fun a _ => a) (fun a _ => a) (fun a => a)
      { exit_confirmation := false, should_quit := false, query_running := false,
        cancel_requested := false, error_panel_open := false,
        results_search_mode := false, query_cancellation_present := false,
        status_line := "" } .CancelQuery).exit_confirmation = true :=
  (exit_confirmation_machine (fun a _ => a) (fun a _ => a) (fun a _ => a)
    (fun a => a)
    { exit_confirmation := false, should_quit := false, query_running := false,
      cancel_requested := false, error_panel_open := false,
      results_search_mode := false, query_cancellation_present := false,
      status_line := "" }).1 rfl rfl rfl

/-- Counterexample for C10 as stated: while an exit is pending, the
non-CancelQuery message `InputChar` does not cancel the pending exit — the
guard only rewrites the status line and `exit_confirmation` stays set. -/
theorem exit_confirmation_counterexample :
    Msg.InputChar 'a' ≠ Msg.CancelQuery ∧
    (handleExitMachine (fun a _ => a) (fun a _ => a) (fun a _ => a) (fun a => a)
      { exit_confirmation := true, should_quit := false, query_running := false,
        cancel_requested := false, error_panel_open := false,
        results_search_mode := false, query_cancellation_present := false,
        status_line := "" } (.InputChar 'a')).exit_confirmation = true :=
  ⟨by decide, rfl⟩
